import Mathlib

/-!
Verification of the `supi-core` query singleton (`src/singletons/query/index.js`)
against its natural-language specification.

The JavaScript source is shallowly embedded: pure string manipulation becomes
Lean functions over `List Char` / `String`, the mutable schema cache becomes
explicit state passing over association lists, and the chunked batch loop
becomes a terminating recursion mirroring the source loop, with the fallibility
of a chunk transaction or of a raw statement execution supplied by an explicit
oracle (`Nat → Bool` per chunk index, `Bool` per call).
-/

namespace Supi

/-! ## Characters used by the escaping routines -/

/-- The backslash character. -/
def bsChar : Char := '\\'

/-- The single-quote character (code point 39). -/
def sqChar : Char := Char.ofNat 39

/-- The double-quote character. -/
def dqChar : Char := '"'

/-- The single-quote character as a one-character string. -/
def sqStr : String := String.singleton sqChar

/-- Wraps a string in single quotes, as the source does with `"'" + s + "'"`. -/
def quoted (s : String) : String := sqStr ++ s ++ sqStr

/-! ## Global character replacement

Embeds JavaScript `String.prototype.replace` with a global single-character
pattern: every occurrence of `c` is replaced by the character list `r`, in one
left-to-right pass (replacements are not rescanned). -/

/-- One global replace pass: each occurrence of `c` becomes `r`. -/
def replaceChar (c : Char) (r : List Char) : List Char → List Char
  | [] => []
  | x :: xs => (if x = c then r else [x]) ++ replaceChar c r xs

/-- Embeds `escapeString` (query/index.js:387-389):
`string.replace(/\\/g, "\\\\").replace(/'/g, "\\'").replace(/"/g, "\\\"")` —
backslashes first, then single quotes, then double quotes. -/
def escapeString (s : String) : String :=
  String.mk (replaceChar dqChar [bsChar, dqChar]
    (replaceChar sqChar [bsChar, sqChar]
      (replaceChar bsChar [bsChar, bsChar] s.data)))

/-- Embeds `escapeLikeString` (query/index.js:396-398):
`this.escapeString(string).replace(/%/g, "\\%").replace(/_/g, "\\_")`. -/
def escapeLikeString (s : String) : String :=
  String.mk (replaceChar '_' [bsChar, '_']
    (replaceChar '%' [bsChar, '%'] (escapeString s).data))

/-- Characterization map for `escapeString`: what one input character
contributes to the output. Used to state that each backslash, single quote and
double quote is escaped exactly once. -/
def escChar (c : Char) : List Char :=
  if c = bsChar then [bsChar, bsChar]
  else if c = sqChar then [bsChar, sqChar]
  else if c = dqChar then [bsChar, dqChar]
  else [c]

/-- Characterization map for `escapeLikeString`: additionally escapes the
wildcard characters `%` and `_`. -/
def likeEscChar (c : Char) : List Char :=
  if c = bsChar then [bsChar, bsChar]
  else if c = sqChar then [bsChar, sqChar]
  else if c = dqChar then [bsChar, dqChar]
  else if c = '%' then [bsChar, '%']
  else if c = '_' then [bsChar, '_']
  else [c]

/-- Concatenation of the images of a list-valued map; written out to stay
independent of library naming. -/
def concatMap (f : α → List β) : List α → List β
  | [] => []
  | x :: xs => f x ++ concatMap f xs

/-! ## MySQL string-literal un-escaping

Modelled from the target engine documentation (MariaDB/MySQL string literals):
inside a quoted literal, a backslash starts an escape sequence; `\0 \b \n \r
\t \Z` denote control characters, `\%` and `\_` stand for themselves with the
backslash retained (for LIKE), and a backslash before any other character
yields that character (in particular covers the `\\`, `\'` and `\"` sequences
produced by `escapeString`). -/

/-- The character a MySQL escape sequence `\c` stands for. -/
def unescapeSeqChar (c : Char) : List Char :=
  if c = '0' then [Char.ofNat 0]
  else if c = 'b' then [Char.ofNat 8]
  else if c = 'n' then [Char.ofNat 10]
  else if c = 'r' then [Char.ofNat 13]
  else if c = 't' then [Char.ofNat 9]
  else if c = 'Z' then [Char.ofNat 26]
  else if c = '%' then [bsChar, '%']
  else if c = '_' then [bsChar, '_']
  else [c]

/-- Un-escapes the body of a MySQL string literal. A dangling final backslash
cannot occur in a well-formed literal body; it is kept as-is. -/
def mysqlUnescapeChars : List Char → List Char
  | [] => []
  | x :: xs =>
    if x = bsChar then
      match xs with
      | [] => [x]
      | y :: ys => unescapeSeqChar y ++ mysqlUnescapeChars ys
    else x :: mysqlUnescapeChars xs

/-- String-level wrapper for `mysqlUnescapeChars`. -/
def mysqlUnescape (s : String) : String := String.mk (mysqlUnescapeChars s.data)

/-! ## Substring search and `escapeIdentifier` -/

/-- Boolean list-prefix test (embeds the start of JavaScript `includes`). -/
def startsWithL : List Char → List Char → Bool
  | [], _ => true
  | _ :: _, [] => false
  | a :: as, b :: bs => a = b && startsWithL as bs

/-- Boolean substring test, embedding `String.prototype.includes`. -/
def includesL (needle : List Char) : List Char → Bool
  | [] => startsWithL needle []
  | c :: rest => startsWithL needle (c :: rest) || includesL needle rest

/-- Embeds `escapeIdentifier` (query/index.js:359-380).  All quoting logic in
the source is commented out; the only live behavior is: wrap the identifier in
backticks when it contains the substring `chatrooms`, else return it
unchanged. -/
def escapeIdentifier (string : String) : String :=
  if includesL ("chatrooms".data) string.data then "`" ++ string ++ "`" else string

/-! ## sb.Date

The `sb.Date` class lives outside this repository (only its callers are in
src/).  Modelled from the spec: temporal targets "render using the type's
canonical textual format (date-only, full datetime, or time-only)". -/

/-- Zero-pads a number to two digits. -/
def pad2 (n : Nat) : String := if n < 10 then "0" ++ toString n else toString n

/-- Zero-pads a number to four digits. -/
def pad4 (n : Nat) : String :=
  if n < 10 then "000" ++ toString n
  else if n < 100 then "00" ++ toString n
  else if n < 1000 then "0" ++ toString n
  else toString n

/-- Modelled from the spec: a structured point-in-time value (`sb.Date`). -/
structure SbDate where
  year : Nat
  month : Nat
  day : Nat
  hour : Nat
  minute : Nat
  second : Nat
  deriving DecidableEq, Repr

/-- Modelled from the spec: the canonical date-only rendering. -/
def SbDate.sqlDate (d : SbDate) : String :=
  pad4 d.year ++ "-" ++ pad2 d.month ++ "-" ++ pad2 d.day

/-- Modelled from the spec: the canonical time-only rendering. -/
def SbDate.sqlTime (d : SbDate) : String :=
  pad2 d.hour ++ ":" ++ pad2 d.minute ++ ":" ++ pad2 d.second

/-- Modelled from the spec: the canonical full datetime rendering. -/
def SbDate.sqlDateTime (d : SbDate) : String :=
  d.sqlDate ++ " " ++ d.sqlTime

/-! ## JavaScript values -/

/-- The host values the query layer handles.  Numbers are modelled as
integers (the claims under verification only inspect the type tag and literal
rendering).  A plain JavaScript `Date` and an `sb.Date` are distinguished
because the source tests `instanceof` on both. -/
inductive JsValue where
  | null
  | bool (b : Bool)
  | num (n : Int)
  | str (s : String)
  | sbDate (d : SbDate)
  | jsDate (d : SbDate)
  | arr (xs : List JsValue)

mutual

/-- Modelled from JavaScript string coercion (`"" + v` / `String(v)` /
`Array.prototype.join`), restricted to the value shapes above. -/
def jsToString : JsValue → String
  | .null => "null"
  | .bool b => if b then "true" else "false"
  | .num n => toString n
  | .str s => s
  | .sbDate d => d.sqlDateTime
  | .jsDate d => d.sqlDateTime
  | .arr xs => String.intercalate "," (jsArrToStrings xs)

/-- String coercion of each element of a list of values. -/
def jsArrToStrings : List JsValue → List String
  | [] => []
  | v :: vs => jsToString v :: jsArrToStrings vs

end

/-- Identity test `value === null`. -/
def isNull : JsValue → Bool
  | .null => true
  | _ => false

/-- Type test `typeof param === "boolean"`. -/
def isBool : JsValue → Bool
  | .bool _ => true
  | _ => false

/-- Type test `typeof param === "number"`. -/
def isNum : JsValue → Bool
  | .num _ => true
  | _ => false

/-- Type test `typeof param === "string"`. -/
def isStr : JsValue → Bool
  | .str _ => true
  | _ => false

/-- Type test `Array.isArray(param)`. -/
def isArr : JsValue → Bool
  | .arr _ => true
  | _ => false

/-- Test for `param instanceof Date` (covers both a plain `Date` and an
`sb.Date`, since `sb.Date` extends `Date`). -/
def isDateLike : JsValue → Bool
  | .sbDate _ => true
  | .jsDate _ => true
  | _ => false

/-- Embeds the normalization `if (param instanceof Date && !(param instanceof
sb.Date)) param = new sb.Date(param)` — a plain `Date` becomes an `sb.Date`
denoting the same instant; everything else is unchanged. -/
def normalizeDate : JsValue → JsValue
  | .jsDate d => .sbDate d
  | v => v

/-- String content of a list element passed to the `s+` token.  The source
calls `i.replace(...)` directly, which is only defined when the element is a
string (JavaScript would throw a `TypeError` otherwise); non-string elements
are modelled through their string coercion. -/
def strContent : JsValue → String
  | .str s => s
  | v => jsToString v

/-! ## Errors -/

/-- Embeds `sb.Error`: a message plus the optional `args` payload the source
attaches (`new sb.Error({ message, args })`). -/
structure SbError where
  message : String
  args : Option JsValue

/-! ## Format-symbol substitution -/

/-- Embeds `parseFormatSymbol` (query/index.js:408-487), the switch over the
format token `type` substituting the positional parameter `param`.  Throwing
`sb.Error` is embedded as returning `Except.error`; the function is pure and
synchronous, so a failure happens at render time, before any statement is
built or sent. -/
def parseFormatSymbol (type : String) (param : JsValue) : Except SbError String :=
  if type = "b" then
    match param with
    | .bool b => .ok (if b then "1" else "0")
    | _ => .error ⟨"Expected boolean, got " ++ jsToString param, none⟩
  else if type = "d" then
    match normalizeDate param with
    | .sbDate d => .ok (quoted d.sqlDate)
    | p => .error ⟨"Expected sb.Date, got " ++ jsToString p, none⟩
  else if type = "dt" then
    match normalizeDate param with
    | .sbDate d => .ok (quoted d.sqlDateTime)
    | p => .error ⟨"Expected sb.Date, got " ++ jsToString p, none⟩
  else if type = "n" then
    match param with
    | .num n => .ok (toString n)
    | _ => .error ⟨"Expected number, got " ++ jsToString param, none⟩
  else if type = "s" then
    match param with
    | .str s => .ok (quoted (escapeString s))
    | _ => .error ⟨"Expected string, got " ++ jsToString param, none⟩
  else if type = "t" then
    match normalizeDate param with
    | .sbDate d => .ok d.sqlTime
    | p => .error ⟨"Expected sb.Date, got " ++ jsToString p, none⟩
  else if type = "s+" then
    match param with
    | .arr xs =>
        .ok ("(" ++ String.intercalate ","
          (xs.map (fun i => quoted (escapeString (strContent i)))) ++ ")")
    | _ => .error ⟨"Expected Array, got " ++ jsToString param, none⟩
  else if type = "n+" then
    match param with
    | .arr xs => .ok ("(" ++ String.intercalate "," (jsArrToStrings xs) ++ ")")
    | _ => .error ⟨"Expected Array, got " ++ jsToString param, none⟩
  else if type = "*like*" then
    match param with
    | .str s => .ok (" LIKE " ++ sqStr ++ "%" ++ escapeLikeString s ++ "%" ++ sqStr)
    | _ => .error ⟨"Expected string, got " ++ jsToString param, none⟩
  else .error ⟨"Unknown Recordset replace parameter", some (.str type)⟩

/-- The tokens the switch in `parseFormatSymbol` recognizes. -/
def recognizedTokens : List String :=
  ["b", "d", "dt", "n", "s", "t", "s+", "n+", "*like*"]

/-- The host type name each recognized token demands, as spelled in the
error messages of the source. -/
def expectedName (type : String) : String :=
  if type = "b" then "boolean"
  else if type = "d" then "sb.Date"
  else if type = "dt" then "sb.Date"
  else if type = "n" then "number"
  else if type = "s" then "string"
  else if type = "t" then "sb.Date"
  else if type = "s+" then "Array"
  else if type = "n+" then "Array"
  else if type = "*like*" then "string"
  else ""

/-- Whether `param` has the host type the token requires. -/
def requiredKind (type : String) (param : JsValue) : Bool :=
  if type = "b" then isBool param
  else if type = "d" then isDateLike param
  else if type = "dt" then isDateLike param
  else if type = "n" then isNum param
  else if type = "s" then isStr param
  else if type = "t" then isDateLike param
  else if type = "s+" then isArr param
  else if type = "n+" then isArr param
  else if type = "*like*" then isStr param
  else false

/-! ## Value conversion to SQL -/

/-- Whether the target type is one of the temporal types of the source
switch. -/
def isTemporalTarget (t : String) : Bool :=
  t = "TIME" || t = "DATE" || t = "DATETIME" || t = "TIMESTAMP"

/-- Join of an array value as `Array.prototype.join(",")`; only applied to
arrays. -/
def joinArr : JsValue → String
  | .arr xs => String.intercalate "," (jsArrToStrings xs)
  | v => jsToString v

/-- Embeds `convertToSQL` (query/index.js:312-357): null becomes the `NULL`
literal; a `TINY` target demands a boolean; a `SET` target with an array value
joins and escapes; temporal targets normalize a plain `Date`, demand an
`sb.Date` and render the quoted canonical literal; strings are escaped and
quoted; anything else passes through unchanged. -/
def convertToSQL (value : JsValue) (targetType : String) : Except SbError JsValue :=
  if isNull value then .ok (.str "NULL")
  else if targetType = "TINY" then
    match value with
    | .bool b => .ok (.str (if b then "1" else "0"))
    | _ => .error ⟨"Expected value type: boolean", some value⟩
  else if targetType = "SET" && isArr value then
    .ok (.str (quoted (escapeString (joinArr value))))
  else if isTemporalTarget targetType then
    match normalizeDate value with
    | .sbDate d =>
        if targetType = "TIME" then .ok (.str (quoted d.sqlTime))
        else if targetType = "DATE" then .ok (.str (quoted d.sqlDate))
        else .ok (.str (quoted d.sqlDateTime))
    | v => .error ⟨"Expected value type: date", some v⟩
  else
    match value with
    | .str s => .ok (.str (quoted (escapeString s)))
    | v => .ok v

/-! ## Raw execution

Embedding of `raw` (query/index.js:76-87).  The pool is abstracted to the
number of currently held connections (`held`); `await this.pool.
getConnection()` increments it, `await connector.end()` decrements it.  The
call `connector.query({...})` at line 80 is *not* awaited: the promise it
returns is stored in `result` while control proceeds straight to
`connector.end()`, so the release runs unconditionally — on statement
success and on statement failure alike — and a failing execution surfaces to
the caller only through the returned promise, after the connection has
already gone back to the pool.  The eventual outcome of that promise is
supplied by the `execOk` oracle. -/

/-- The eventual outcome of the promise `connector.query(...)` returns: the
driver result (modelled by the query text) or the execution error. -/
def execQuery (execOk : Bool) (query : String) : Except String String :=
  if execOk then .ok query else .error ("Query failed: " ++ query)

/-- Embeds `raw`: joins the arguments with newlines, acquires a connection,
starts the query without awaiting it, releases the connection, and returns
the query promise.  The first component is the outcome the caller eventually
observes, the second the number of connections still held when `raw`
exits. -/
def raw (args : List String) (execOk : Bool) (held : Nat) :
    Except String String × Nat :=
  let query := String.intercalate "\n" args
  let held1 := held + 1
  let result := execQuery execOk query
  let held2 := held1 - 1
  (result, held2)

/-! ## Chunked batch update

Embeds `batchUpdate` (query/index.js:140-161).  The per-row rendering through
`RecordUpdater` is not under src/ (only this caller is); the loop is therefore
modelled over the list of already-rendered update statements, one per input
row.  Whether the transaction of chunk `k` raises inside `transaction.query`
is supplied by the oracle `fails`; the `catch` branch rolls the chunk back and
the loop continues with the next chunk. -/

/-- Embeds the module constant `updateBatchLimit = 1000`. -/
def updateBatchLimit : Nat := 1000

/-- Embeds `Array.prototype.slice(start, stop)`. -/
def sliceJs (l : List α) (start stop : Nat) : List α :=
  (l.drop start).take (stop - start)

/-- The chunk start indexes produced by the source loop
`for (let i = 0; i <= queries.length; i += updateBatchLimit)` — note the
bound is `i <= length`, not `i < length`. -/
def chunkStartsFrom (i n : Nat) : List Nat :=
  if i ≤ n then i :: chunkStartsFrom (i + updateBatchLimit) n else []
termination_by n + 1 - i
decreasing_by simp [updateBatchLimit]; omega

/-- All chunk start indexes for `n` statements. -/
def chunkStarts (n : Nat) : List Nat := chunkStartsFrom 0 n

/-- The chunks of rendered statements the source loop slices out. -/
def chunks (queries : List String) : List (List String) :=
  (chunkStarts queries.length).map
    (fun i => sliceJs queries i (i + updateBatchLimit))

/-- Outcome of one chunk: the statements sent in its transaction and whether
that transaction committed (`true`) or was rolled back (`false`). -/
structure ChunkOutcome where
  statements : List String
  committed : Bool
  deriving DecidableEq, Repr

/-- The source loop, one transaction per iteration: chunk `k` starting at
index `i` is sliced, sent inside its own transaction, committed when its
query succeeds and rolled back when it raises; the loop then proceeds to the
next chunk either way. -/
def batchRunFrom (queries : List String) (fails : Nat → Bool) (i k : Nat) :
    List ChunkOutcome :=
  if i ≤ queries.length then
    (if fails k then
      ChunkOutcome.mk (sliceJs queries i (i + updateBatchLimit)) false
     else
      ChunkOutcome.mk (sliceJs queries i (i + updateBatchLimit)) true)
      :: batchRunFrom queries fails (i + updateBatchLimit) (k + 1)
  else []
termination_by queries.length + 1 - i
decreasing_by simp [updateBatchLimit]; omega

/-- The transaction outcomes of the whole batch loop. -/
def batchRun (queries : List String) (fails : Nat → Bool) : List ChunkOutcome :=
  batchRunFrom queries fails 0 0

/-- Database effect of the loop from chunk `k` onwards: a committed chunk
appends all of its statements to the applied list, a rolled-back chunk
appends nothing. -/
def batchApplyFrom (queries : List String) (fails : Nat → Bool) (i k : Nat)
    (db : List String) : List String :=
  if i ≤ queries.length then
    batchApplyFrom queries fails (i + updateBatchLimit) (k + 1)
      (if fails k then db else db ++ sliceJs queries i (i + updateBatchLimit))
  else db
termination_by queries.length + 1 - i
decreasing_by simp [updateBatchLimit]; omega

/-- The statements the whole batch actually applied. -/
def appliedStatements (queries : List String) (fails : Nat → Bool) : List String :=
  batchApplyFrom queries fails 0 0 []

/-- Embeds the value `batchUpdate` returns to its caller: the source function
ends after the loop with no `return` statement, so the per-chunk outcomes are
dropped and the caller receives `undefined`, here `Unit`. -/
def batchUpdate (queries : List String) (fails : Nat → Bool) : Unit :=
  let _ := batchRun queries fails
  ()

/-- Pairs every list element with its index, starting at `k`. -/
def enumIdx (k : Nat) : List α → List (Nat × α)
  | [] => []
  | x :: xs => (k, x) :: enumIdx (k + 1) xs

/-! ## Information schema and `isTablePresent` -/

/-- One row of `INFORMATION_SCHEMA.TABLES`, restricted to the two columns the
query filters on. -/
structure ISRow where
  schema : String
  table : String
  deriving DecidableEq, Repr

/-- Modelled from the spec: the rows the rendered recordset
`SELECT 1 FROM INFORMATION_SCHEMA.TABLES WHERE TABLE_SCHEMA = %s AND
TABLE_NAME = %s` returns — the `Recordset` builder and the database engine are
outside src/; the spec states the match is exact on both names. -/
def matchingRows (db : List ISRow) (database table : String) : List ISRow :=
  db.filter (fun r => r.schema == database && r.table == table)

/-- Embeds `isTablePresent` (query/index.js:169-178): fetches the matching
rows and returns `exists.length !== 0`. -/
def isTablePresent (db : List ISRow) (database table : String) : Bool :=
  (matchingRows db database table).length != 0

/-! ## Schema definition cache -/

/-- Column metadata as delivered by the driver (`data.meta`): name, type name
and the bit-flag field. -/
structure ColumnMeta where
  name : String
  type : String
  flags : Nat
  deriving DecidableEq, Repr

/-- Embeds the decoded `ColumnDefinition` the cache stores. -/
structure ColumnDefinition where
  name : String
  type : String
  notNull : Bool
  primaryKey : Bool
  unsigned : Bool
  deriving DecidableEq, Repr

/-- Embeds `Query.flagMask` (query/index.js:493-511). -/
def flagMask (s : String) : Nat :=
  if s = "NOT_NULL" then 1
  else if s = "PRIMARY_KEY" then 2
  else if s = "UNIQUE_KEY" then 4
  else if s = "MULTIPLE_KEY" then 8
  else if s = "BLOB" then 16
  else if s = "UNSIGNED" then 32
  else if s = "ZEROFILL_FLAG" then 64
  else if s = "BINARY_COLLATION" then 128
  else if s = "ENUM" then 256
  else if s = "AUTO_INCREMENT" then 512
  else if s = "TIMESTAMP" then 1024
  else if s = "SET" then 2048
  else if s = "NO_DEFAULT_VALUE_FLAG" then 4096
  else if s = "ON_UPDATE_NOW_FLAG" then 8192
  else if s = "NUM_FLAG" then 32768
  else 0

/-- Decodes one driver column into a `ColumnDefinition`, as the loop in
`getDefinition` does with `!!(column.flags & Query.flagMask[...])`. -/
def decodeColumn (c : ColumnMeta) : ColumnDefinition :=
  ⟨c.name, c.type,
    (c.flags &&& flagMask "NOT_NULL") != 0,
    (c.flags &&& flagMask "PRIMARY_KEY") != 0,
    (c.flags &&& flagMask "UNSIGNED") != 0⟩

/-- Embeds the `TableDefinition` object `getDefinition` builds and caches. -/
structure TableDef where
  name : String
  database : String
  path : String
  escapedPath : String
  columns : List ColumnDefinition
  deriving DecidableEq, Repr

/-- Association-list lookup (object property read). -/
def assocGet : List (String × β) → String → Option β
  | [], _ => none
  | (k, v) :: rest, key => if k = key then some v else assocGet rest key

/-- Association-list update (object property write). -/
def assocSet : List (String × β) → String → β → List (String × β)
  | [], key, v => [(key, v)]
  | (k, w) :: rest, key, v =>
      if k = key then (key, v) :: rest else (k, w) :: assocSet rest key v

/-- The `tableDefinitions` two-level store: database name to table name to a
definition or `null` (an invalidated entry). -/
def DefCache : Type := List (String × List (String × Option TableDef))

/-- Truthiness test `this.tableDefinitions[database] &&
this.tableDefinitions[database][table]`: an absent outer object, an absent
entry and a `null` entry all read as absent. -/
def cacheGet (c : DefCache) (db t : String) : Option TableDef :=
  match assocGet c db with
  | none => none
  | some m =>
    match assocGet m t with
    | none => none
    | some v => v

/-- Cache write `this.tableDefinitions[database][table] = v`, creating the
outer object first when missing (`... = this.tableDefinitions[database] ||
{}`). -/
def cacheSet (c : DefCache) (db t : String) (v : Option TableDef) : DefCache :=
  assocSet c db (assocSet ((assocGet c db).getD []) t v)

/-- The introspection SQL text `getDefinition` sends through `raw`
(query/index.js:234): `"SELECT * FROM " + path + " WHERE 1 = 0"` where `path`
concatenates the two identifiers through `escapeIdentifier` with a dot. -/
def introspectionSQL (database table : String) : String :=
  "SELECT * FROM " ++ escapeIdentifier database ++ "." ++ escapeIdentifier table
    ++ " WHERE 1 = 0"

/-- The `TableDefinition` object `getDefinition` builds on a cache miss from
the driver metadata of the introspection query (supplied by the `oracle`). -/
def freshDef (oracle : String → String → List ColumnMeta)
    (database table : String) : TableDef :=
  { name := table
    database := database
    path := escapeIdentifier database ++ "." ++ escapeIdentifier table
    escapedPath := "`" ++ escapeIdentifier database ++ "`.`"
      ++ escapeIdentifier table ++ "`"
    columns := (oracle database table).map decodeColumn }

/-- Embeds `getDefinition` (query/index.js:218-247).  The driver metadata the
zero-row introspection query returns is supplied by the `oracle`.  Returns
the definition, the updated cache and the list of introspection queries this
call issued (empty on a cache hit). -/
def getDefinition (oracle : String → String → List ColumnMeta) (c : DefCache)
    (database table : String) : TableDef × DefCache × List String :=
  match cacheGet c database table with
  | some d => (d, c, [])
  | none =>
    (freshDef oracle database table,
      cacheSet c database table (some (freshDef oracle database table)),
      [introspectionSQL database table])

/-- Embeds `invalidateDefinition` (query/index.js:255-259): when the entry is
live it is set to `null`; otherwise nothing changes. -/
def invalidateDefinition (c : DefCache) (database table : String) : DefCache :=
  match cacheGet c database table with
  | some _ => cacheSet c database table none
  | none => c

/-! ## Lemmas about the escaping passes -/

theorem replaceChar_append (c : Char) (r : List Char) (a b : List Char) :
    replaceChar c r (a ++ b) = replaceChar c r a ++ replaceChar c r b := by
  induction a with
  | nil => simp [replaceChar]
  | cons x xs ih => simp [replaceChar, ih]

theorem escHeadBlock (x : Char) :
    replaceChar dqChar [bsChar, dqChar] (replaceChar sqChar [bsChar, sqChar]
      (if x = bsChar then [bsChar, bsChar] else [x])) = escChar x := by
  by_cases h1 : x = bsChar
  · subst h1; decide
  · by_cases h2 : x = sqChar
    · subst h2; decide
    · by_cases h3 : x = dqChar
      · subst h3; decide
      · simp [replaceChar, escChar, h1, h2, h3]

theorem escChars_eq (l : List Char) :
    replaceChar dqChar [bsChar, dqChar] (replaceChar sqChar [bsChar, sqChar]
      (replaceChar bsChar [bsChar, bsChar] l)) = concatMap escChar l := by
  induction l with
  | nil => decide
  | cons x xs ih =>
    have hb : replaceChar bsChar [bsChar, bsChar] (x :: xs)
        = (if x = bsChar then [bsChar, bsChar] else [x])
          ++ replaceChar bsChar [bsChar, bsChar] xs := rfl
    rw [hb, replaceChar_append, replaceChar_append, escHeadBlock, ih]
    rfl

theorem likeHeadBlock (x : Char) :
    replaceChar '_' [bsChar, '_'] (replaceChar '%' [bsChar, '%'] (escChar x))
      = likeEscChar x := by
  by_cases h1 : x = bsChar
  · subst h1; decide
  · by_cases h2 : x = sqChar
    · subst h2; decide
    · by_cases h3 : x = dqChar
      · subst h3; decide
      · by_cases h4 : x = '%'
        · subst h4; decide
        · by_cases h5 : x = '_'
          · subst h5; decide
          · simp [escChar, likeEscChar, replaceChar, h1, h2, h3, h4, h5]

theorem likeChars_eq (l : List Char) :
    replaceChar '_' [bsChar, '_'] (replaceChar '%' [bsChar, '%'] (concatMap escChar l))
      = concatMap likeEscChar l := by
  induction l with
  | nil => decide
  | cons x xs ih =>
    have hc : concatMap escChar (x :: xs) = escChar x ++ concatMap escChar xs := rfl
    rw [hc, replaceChar_append, replaceChar_append, likeHeadBlock, ih]
    rfl

theorem unescape_escChars (l : List Char) :
    mysqlUnescapeChars (concatMap escChar l) = l := by
  induction l with
  | nil => rfl
  | cons x xs ih =>
    have hc : concatMap escChar (x :: xs) = escChar x ++ concatMap escChar xs := rfl
    rw [hc]
    by_cases h1 : x = bsChar
    · subst h1
      have he : escChar bsChar = [bsChar, bsChar] := by decide
      rw [he]
      show unescapeSeqChar bsChar ++ mysqlUnescapeChars (concatMap escChar xs)
        = bsChar :: xs
      have hu : unescapeSeqChar bsChar = [bsChar] := by decide
      rw [hu, ih]; rfl
    · by_cases h2 : x = sqChar
      · subst h2
        have he : escChar sqChar = [bsChar, sqChar] := by decide
        rw [he]
        show unescapeSeqChar sqChar ++ mysqlUnescapeChars (concatMap escChar xs)
          = sqChar :: xs
        have hu : unescapeSeqChar sqChar = [sqChar] := by decide
        rw [hu, ih]; rfl
      · by_cases h3 : x = dqChar
        · subst h3
          have he : escChar dqChar = [bsChar, dqChar] := by decide
          rw [he]
          show unescapeSeqChar dqChar ++ mysqlUnescapeChars (concatMap escChar xs)
            = dqChar :: xs
          have hu : unescapeSeqChar dqChar = [dqChar] := by decide
          rw [hu, ih]; rfl
        · have he : escChar x = [x] := by simp [escChar, h1, h2, h3]
          rw [he]
          show mysqlUnescapeChars (x :: concatMap escChar xs) = x :: xs
          rw [mysqlUnescapeChars.eq_def]
          simp [h1, ih]

/-! ## Lemmas about the batch loop -/

theorem enumIdx_map (g : α → β) :
    ∀ (k : Nat) (l : List α),
      enumIdx k (l.map g) = (enumIdx k l).map (fun p => (p.1, g p.2)) := by
  intro k l
  induction l generalizing k with
  | nil => rfl
  | cons x xs ih => simp [enumIdx, ih]

theorem batchRunFrom_enum (q : List String) (f : Nat → Bool) :
    ∀ (j i k : Nat), q.length + 1 - i ≤ j →
      batchRunFrom q f i k
        = (enumIdx k (chunkStartsFrom i q.length)).map
            (fun p => ChunkOutcome.mk
              (sliceJs q p.2 (p.2 + updateBatchLimit)) (!f p.1)) := by
  intro j
  induction j with
  | zero =>
    intro i k hij
    have hi : ¬ (i ≤ q.length) := by omega
    rw [batchRunFrom.eq_def, chunkStartsFrom.eq_def]
    simp [hi, enumIdx]
  | succ j ih =>
    intro i k hij
    rw [batchRunFrom.eq_def, chunkStartsFrom.eq_def]
    by_cases hi : i ≤ q.length
    · have hL : 0 < updateBatchLimit := by decide
      have hrec := ih (i + updateBatchLimit) (k + 1) (by omega)
      simp only [hi, if_pos, enumIdx, List.map_cons, hrec]
      cases hf : f k <;> simp [hf]
    · simp [hi, enumIdx]

theorem batchApplyFrom_filter (q : List String) (f : Nat → Bool) :
    ∀ (j i k : Nat) (db : List String), q.length + 1 - i ≤ j →
      batchApplyFrom q f i k db
        = db ++ concatMap (fun c => c.statements)
            ((batchRunFrom q f i k).filter (fun c => c.committed)) := by
  intro j
  induction j with
  | zero =>
    intro i k db hij
    have hi : ¬ (i ≤ q.length) := by omega
    rw [batchApplyFrom.eq_def, batchRunFrom.eq_def]
    simp [hi, concatMap]
  | succ j ih =>
    intro i k db hij
    rw [batchApplyFrom.eq_def, batchRunFrom.eq_def]
    by_cases hi : i ≤ q.length
    · have hL : 0 < updateBatchLimit := by decide
      have hrec := ih (i + updateBatchLimit) (k + 1)
        (if f k then db
         else db ++ sliceJs q i (i + updateBatchLimit)) (by omega)
      simp only [hi, if_pos, hrec]
      cases hf : f k
      · simp [hf, List.filter, concatMap, List.append_assoc]
      · simp [hf, List.filter, concatMap]
    · simp [hi, concatMap]

/-- C7: `escapeString` escapes each backslash, single quote and double quote
exactly once (character-wise, backslashes handled by the first pass so nothing
is escaped twice); `escapeLikeString` additionally escapes `%` and `_`; and
un-escaping the escaped text under the modelled MySQL string-literal rules
returns the original string exactly. -/
theorem escapeString_charwise_and_roundtrip (s : String) :
    (escapeString s).data = concatMap escChar s.data ∧
    (escapeLikeString s).data = concatMap likeEscChar s.data ∧
    mysqlUnescape (escapeString s) = s := by
  refine ⟨escChars_eq s.data, ?_, ?_⟩
  · show replaceChar '_' [bsChar, '_'] (replaceChar '%' [bsChar, '%']
      ((escapeString s).data)) = concatMap likeEscChar s.data
    rw [show (escapeString s).data = replaceChar dqChar [bsChar, dqChar]
      (replaceChar sqChar [bsChar, sqChar]
        (replaceChar bsChar [bsChar, bsChar] s.data)) from rfl]
    rw [escChars_eq, likeChars_eq]
  · show String.mk (mysqlUnescapeChars (escapeString s).data) = s
    rw [show (escapeString s).data = replaceChar dqChar [bsChar, dqChar]
      (replaceChar sqChar [bsChar, sqChar]
        (replaceChar bsChar [bsChar, bsChar] s.data)) from rfl]
    rw [escChars_eq, unescape_escChars]

/-- C1: the source `batchUpdate` returns no per-chunk outcome.  At a concrete
one-chunk batch whose transaction fails, the value returned to the caller is
identical to the one returned when every transaction commits — the rollback
recorded in the run trace (`batchRun`) is silently discarded, contradicting
the claim that the call reports, for each chunk, whether it committed or was
rolled back. -/
theorem batchUpdate_discards_chunk_outcomes :
    batchUpdate ["UPDATE Test SET Value = 0 WHERE ID = 1;"] (fun _ => true)
      = batchUpdate ["UPDATE Test SET Value = 0 WHERE ID = 1;"] (fun _ => false) ∧
    (batchRun ["UPDATE Test SET Value = 0 WHERE ID = 1;"] (fun _ => true)).map
      (fun c => c.committed) = [false] ∧
    (batchRun ["UPDATE Test SET Value = 0 WHERE ID = 1;"] (fun _ => false)).map
      (fun c => c.committed) = [true] := by
  refine ⟨rfl, ?_, ?_⟩
  · rw [batchRun,
      batchRunFrom_enum _ _ (["UPDATE Test SET Value = 0 WHERE ID = 1;"].length + 1)
        0 0 (by omega)]
    simp [chunkStartsFrom.eq_def, updateBatchLimit, enumIdx]
  · rw [batchRun,
      batchRunFrom_enum _ _ (["UPDATE Test SET Value = 0 WHERE ID = 1;"].length + 1)
        0 0 (by omega)]
    simp [chunkStartsFrom.eq_def, updateBatchLimit, enumIdx]

theorem length_sliceJs (l : List α) (a b : Nat) :
    (sliceJs l a b).length = min (b - a) (l.length - a) := by
  simp [sliceJs]

/-- C2: the loop bound `i <= queries.length` produces the right chunks for
2500 statements (1000, 1000, 500), but for any exact multiple of the chunk
size it runs one extra iteration and emits a spurious empty trailing chunk:
2000 statements yield three chunks of sizes 1000, 1000, 0 where the claim
demands exactly two, and even an empty batch yields one empty chunk. -/
theorem batchUpdate_chunk_boundary_off_by_one :
    (chunks (List.replicate 2500 "UPDATE Test SET Value = 0;")).map List.length
      = [1000, 1000, 500] ∧
    (chunks (List.replicate 2000 "UPDATE Test SET Value = 0;")).map List.length
      = [1000, 1000, 0] ∧
    (chunks ([] : List String)).map List.length = [0] := by
  have h25 : chunkStarts 2500 = [0, 1000, 2000] := by
    rw [chunkStarts, chunkStartsFrom.eq_def]
    norm_num [updateBatchLimit]
    rw [chunkStartsFrom.eq_def]
    norm_num [updateBatchLimit]
    rw [chunkStartsFrom.eq_def]
    norm_num [updateBatchLimit]
    rw [chunkStartsFrom.eq_def]
    norm_num [updateBatchLimit]
  have h20 : chunkStarts 2000 = [0, 1000, 2000] := by
    rw [chunkStarts, chunkStartsFrom.eq_def]
    norm_num [updateBatchLimit]
    rw [chunkStartsFrom.eq_def]
    norm_num [updateBatchLimit]
    rw [chunkStartsFrom.eq_def]
    norm_num [updateBatchLimit]
    rw [chunkStartsFrom.eq_def]
    norm_num [updateBatchLimit]
  refine ⟨?_, ?_, ?_⟩
  · simp only [chunks, List.length_replicate, h25, List.map_cons, List.map_nil,
      length_sliceJs, updateBatchLimit]
    norm_num
  · simp only [chunks, List.length_replicate, h20, List.map_cons, List.map_nil,
      length_sliceJs, updateBatchLimit]
    norm_num
  · simp [chunks, chunkStarts, chunkStartsFrom.eq_def, updateBatchLimit,
      sliceJs]

/-- C3: in the batch loop every chunk is executed in its own transaction whose
outcome depends only on that chunk's own failure flag — the `k`-th outcome is
exactly the `k`-th chunk with its own commit bit, for every failure oracle, so
a failed chunk never prevents a later chunk from running — and the statements
actually applied to the database are precisely the concatenation of the
committed chunks in full: a chunk contributes either all of its statements or
none (rolled back as a unit). -/
theorem batchUpdate_chunks_transactional (queries : List String)
    (fails : Nat → Bool) :
    batchRun queries fails
      = (enumIdx 0 (chunks queries)).map
          (fun p => ChunkOutcome.mk p.2 (!fails p.1)) ∧
    appliedStatements queries fails
      = concatMap (fun c => c.statements)
          ((batchRun queries fails).filter (fun c => c.committed)) := by
  constructor
  · rw [batchRun, batchRunFrom_enum queries fails (queries.length + 1) 0 0 (by omega)]
    simp [chunks, chunkStarts, enumIdx_map, List.map_map, Function.comp]
  · rw [appliedStatements,
      batchApplyFrom_filter queries fails (queries.length + 1) 0 0 [] (by omega),
      batchRun]
    simp

/-- C4: every `raw` call that acquires a pooled connection releases it on
every exit path.  Because the query promise is not awaited, `connector.end()`
runs unconditionally: for every execution outcome the held-connection count
on exit equals the count before the call, while a successful execution hands
the driver result and a failing one hands the execution error to the caller
through the returned promise. -/
theorem raw_releases_on_every_path (args : List String) (execOk : Bool)
    (held : Nat) :
    (raw args execOk held).2 = held ∧
    (raw args true held).1 = .ok (String.intercalate "\n" args) ∧
    (raw args false held).1
      = .error ("Query failed: " ++ String.intercalate "\n" args) :=
  ⟨rfl, rfl, rfl⟩

/-! ## Lemmas for `isTablePresent` -/

theorem matchingRows_mem_eq (db : List ISRow) (s t : String) :
    ∀ r ∈ matchingRows db s t, r = ⟨s, t⟩ := by
  intro r hr
  have := List.of_mem_filter hr
  obtain ⟨a, b⟩ := r
  simp at this
  simp [this.1, this.2]

theorem nodup_const_length_le_one {l : List α} (a : α) (hn : l.Nodup)
    (h : ∀ x ∈ l, x = a) : l.length ≤ 1 := by
  match l with
  | [] => simp
  | [x] => simp
  | x :: y :: rest =>
    exfalso
    have hx : x = a := h x (by simp)
    have hy : y = a := h y (by simp)
    have : x ≠ y := by
      have := List.nodup_cons.mp hn
      exact fun e => this.1 (e ▸ List.mem_cons_self y rest)
    exact this (hx.trans hy.symm)

/-- C5: over any duplicate-free information-schema listing (uniqueness of the
(schema, table) key is a database invariant), `isTablePresent` returns `true`
exactly when exactly one row matches both names, and returns `false` whenever
no row matches — in particular for a near-miss name. -/
theorem isTablePresent_exact_match (db : List ISRow) (s t : String)
    (hn : db.Nodup) :
    (isTablePresent db s t = true ↔ (matchingRows db s t).length = 1) ∧
    (matchingRows db s t = [] → isTablePresent db s t = false) := by
  constructor
  · have hle : (matchingRows db s t).length ≤ 1 :=
      nodup_const_length_le_one ⟨s, t⟩ (List.Nodup.filter _ hn)
        (matchingRows_mem_eq db s t)
    simp only [isTablePresent, bne_iff_ne, ne_eq]
    omega
  · intro h
    simp [isTablePresent, h]

/-- Witness for C5 at the concrete listing holding exactly
`data.Extra_News`. -/
theorem isTablePresent_exact_match_witness :
    (isTablePresent [⟨"data", "Extra_News"⟩] "data" "Extra_News" = true ↔
      (matchingRows [⟨"data", "Extra_News"⟩] "data" "Extra_News").length = 1) ∧
    (matchingRows [⟨"data", "Extra_News"⟩] "data" "Extra_News" = [] →
      isTablePresent [⟨"data", "Extra_News"⟩] "data" "Extra_News" = false) :=
  isTablePresent_exact_match [⟨"data", "Extra_News"⟩] "data" "Extra_News"
    (by decide)

/-- C6: for every recognized token, `parseFormatSymbol` succeeds exactly on
parameters of the token's required host type and fails on a mismatch with the
`sb.Error` whose message names the expected type and carries the received
value; any unrecognized token fails with the `sb.Error` that carries the
token in its `args`.  Both failures are produced by the pure substitutor at
render time, before any statement text is assembled or sent. -/
theorem parseFormatSymbol_validates (type : String) (param : JsValue) :
    (type ∈ recognizedTokens → requiredKind type param = false →
      parseFormatSymbol type param = .error
        ⟨"Expected " ++ expectedName type ++ ", got " ++ jsToString param, none⟩) ∧
    (type ∉ recognizedTokens →
      parseFormatSymbol type param = .error
        ⟨"Unknown Recordset replace parameter", some (.str type)⟩) ∧
    (type ∈ recognizedTokens → requiredKind type param = true →
      ∃ out, parseFormatSymbol type param = .ok out) := by
  refine ⟨?_, ?_, ?_⟩
  · intro hmem hkind
    simp only [recognizedTokens, List.mem_cons, List.mem_singleton,
      List.not_mem_nil, or_false] at hmem
    rcases hmem with h | h | h | h | h | h | h | h | h <;> subst h <;>
      cases param <;>
      simp_all [parseFormatSymbol, requiredKind, expectedName, isBool, isNum,
        isStr, isArr, isDateLike, normalizeDate]
  · intro hnot
    simp only [recognizedTokens, List.mem_cons, List.mem_singleton,
      List.not_mem_nil, or_false, not_or] at hnot
    obtain ⟨n1, n2, n3, n4, n5, n6, n7, n8, n9⟩ := hnot
    simp [parseFormatSymbol, n1, n2, n3, n4, n5, n6, n7, n8, n9]
  · intro hmem hkind
    simp only [recognizedTokens, List.mem_cons, List.mem_singleton,
      List.not_mem_nil, or_false] at hmem
    rcases hmem with h | h | h | h | h | h | h | h | h <;> subst h <;>
      cases param <;>
      simp_all [parseFormatSymbol, requiredKind, isBool, isNum, isStr, isArr,
        isDateLike, normalizeDate]

/-- Witness for C6: the number token rejects a string parameter with the
error carrying the received value; an unknown token (`p`, which the token
regex admits but the switch does not handle) fails carrying the token; a
well-typed parameter is accepted. -/
theorem parseFormatSymbol_validates_witness :
    parseFormatSymbol "n" (.str "abc")
      = .error ⟨"Expected number, got abc", none⟩ ∧
    parseFormatSymbol "p" (.bool true)
      = .error ⟨"Unknown Recordset replace parameter", some (.str "p")⟩ ∧
    (∃ out, parseFormatSymbol "n" (.num 13) = .ok out) := by
  refine ⟨?_, ?_, ?_⟩
  · have h := (parseFormatSymbol_validates "n" (.str "abc")).1
      (by decide) (by decide)
    simpa [expectedName, jsToString] using h
  · exact (parseFormatSymbol_validates "p" (.bool true)).2.1 (by decide)
  · exact (parseFormatSymbol_validates "n" (.num 13)).2.2 (by decide) (by decide)

/-- C8 counterexample: at a concrete `sb.Date`, the `t` token renders the
bare time string while the Value Converter renders the single-quoted `TIME`
literal, so the claimed equality fails for the time token. -/
theorem time_token_differs_from_converter :
    ¬ ((parseFormatSymbol "t" (.sbDate ⟨2022, 5, 14, 12, 34, 56⟩)).map JsValue.str
        = convertToSQL (.sbDate ⟨2022, 5, 14, 12, 34, 56⟩) "TIME") := by
  intro h
  have e1 : (parseFormatSymbol "t" (.sbDate ⟨2022, 5, 14, 12, 34, 56⟩)).map
      JsValue.str = Except.ok (JsValue.str "12:34:56") := rfl
  have e2 : convertToSQL (.sbDate ⟨2022, 5, 14, 12, 34, 56⟩) "TIME"
      = Except.ok (JsValue.str (quoted "12:34:56")) := rfl
  rw [e1, e2] at h
  have h1 : JsValue.str "12:34:56" = JsValue.str (quoted "12:34:56") := by
    injection h
  have h2 : "12:34:56" = quoted "12:34:56" := by injection h1
  exact absurd h2 (by decide)

/-- C8 amended: for every structured date/time value, the `d` and `dt` tokens
render exactly the Value Converter's quoted `DATE` and `DATETIME` literals,
while the `t` token renders the canonical time string without quotes — equal
to the converter's `TIME` literal only after re-adding the surrounding single
quotes. -/
theorem temporal_tokens_vs_converter (v : JsValue) (h : isDateLike v = true) :
    (parseFormatSymbol "d" v).map JsValue.str = convertToSQL v "DATE" ∧
    (parseFormatSymbol "dt" v).map JsValue.str = convertToSQL v "DATETIME" ∧
    (parseFormatSymbol "t" v).map (fun s => JsValue.str (quoted s))
      = convertToSQL v "TIME" := by
  cases v <;> first
    | exact ⟨rfl, rfl, rfl⟩
    | simp [isDateLike] at h

/-- Witness for C8 at a concrete date value. -/
theorem temporal_tokens_vs_converter_witness :
    isDateLike (.sbDate ⟨2021, 1, 2, 3, 4, 5⟩) = true ∧
    ((parseFormatSymbol "d" (.sbDate ⟨2021, 1, 2, 3, 4, 5⟩)).map JsValue.str
        = convertToSQL (.sbDate ⟨2021, 1, 2, 3, 4, 5⟩) "DATE" ∧
      (parseFormatSymbol "dt" (.sbDate ⟨2021, 1, 2, 3, 4, 5⟩)).map JsValue.str
        = convertToSQL (.sbDate ⟨2021, 1, 2, 3, 4, 5⟩) "DATETIME" ∧
      (parseFormatSymbol "t" (.sbDate ⟨2021, 1, 2, 3, 4, 5⟩)).map
          (fun s => JsValue.str (quoted s))
        = convertToSQL (.sbDate ⟨2021, 1, 2, 3, 4, 5⟩) "TIME") :=
  ⟨rfl, temporal_tokens_vs_converter (.sbDate ⟨2021, 1, 2, 3, 4, 5⟩) rfl⟩

/-! ## Lemmas for the schema cache -/

theorem assocGet_assocSet_self (l : List (String × β)) (k : String) (v : β) :
    assocGet (assocSet l k v) k = some v := by
  induction l with
  | nil => simp [assocGet, assocSet]
  | cons p rest ih =>
    obtain ⟨a, b⟩ := p
    by_cases h : a = k
    · simp [assocSet, assocGet, h]
    · simp [assocSet, assocGet, h, ih]

theorem cacheGet_cacheSet_self (c : DefCache) (db t : String)
    (v : Option TableDef) : cacheGet (cacheSet c db t v) db t = v := by
  simp [cacheGet, cacheSet, assocGet_assocSet_self]

theorem getDefinition_miss (oracle : String → String → List ColumnMeta)
    (c : DefCache) (db t : String) (h : cacheGet c db t = none) :
    getDefinition oracle c db t
      = (freshDef oracle db t,
          cacheSet c db t (some (freshDef oracle db t)),
          [introspectionSQL db t]) := by
  simp [getDefinition, h]

theorem getDefinition_hit (oracle : String → String → List ColumnMeta)
    (c : DefCache) (db t : String) (d : TableDef)
    (h : cacheGet c db t = some d) :
    getDefinition oracle c db t = (d, c, []) := by
  simp [getDefinition, h]

/-- C9: starting from a cache with no live entry for the pair, the first
`getDefinition` call issues exactly one introspection query, the second call
issues none and returns the same definition from the cache; after
`invalidateDefinition` the next call issues one fresh introspection query and
stores its result back in the cache. -/
theorem getDefinition_caches (oracle : String → String → List ColumnMeta)
    (c : DefCache) (db t : String) (h : cacheGet c db t = none) :
    ((getDefinition oracle c db t).2.2).length = 1 ∧
    (getDefinition oracle (getDefinition oracle c db t).2.1 db t).2.2 = [] ∧
    (getDefinition oracle (getDefinition oracle c db t).2.1 db t).1
      = (getDefinition oracle c db t).1 ∧
    ((getDefinition oracle
        (invalidateDefinition (getDefinition oracle c db t).2.1 db t)
        db t).2.2).length = 1 ∧
    cacheGet
        (getDefinition oracle
          (invalidateDefinition (getDefinition oracle c db t).2.1 db t)
          db t).2.1 db t
      = some (getDefinition oracle
          (invalidateDefinition (getDefinition oracle c db t).2.1 db t)
          db t).1 := by
  have e1 := getDefinition_miss oracle c db t h
  have hc1 : cacheGet (getDefinition oracle c db t).2.1 db t
      = some (freshDef oracle db t) := by
    rw [e1]; exact cacheGet_cacheSet_self c db t (some (freshDef oracle db t))
  have e2 := getDefinition_hit oracle (getDefinition oracle c db t).2.1 db t
    (freshDef oracle db t) hc1
  have e3 : invalidateDefinition (getDefinition oracle c db t).2.1 db t
      = cacheSet (getDefinition oracle c db t).2.1 db t none := by
    rw [invalidateDefinition, hc1]
  have hc2 : cacheGet
      (invalidateDefinition (getDefinition oracle c db t).2.1 db t) db t
      = none := by
    rw [e3]; exact cacheGet_cacheSet_self _ db t none
  have e4 := getDefinition_miss oracle
    (invalidateDefinition (getDefinition oracle c db t).2.1 db t) db t hc2
  refine ⟨by rw [e1]; rfl, by rw [e2], by rw [e2, e1], by rw [e4]; rfl, ?_⟩
  rw [e4]
  exact cacheGet_cacheSet_self _ db t (some (freshDef oracle db t))

/-- Witness for C9 from the empty cache with a trivial introspection
oracle. -/
theorem getDefinition_caches_witness :
    ((getDefinition (fun _ _ => []) [] "data" "Users").2.2).length = 1 ∧
    (getDefinition (fun _ _ => [])
        (getDefinition (fun _ _ => []) [] "data" "Users").2.1
        "data" "Users").2.2 = [] ∧
    (getDefinition (fun _ _ => [])
        (getDefinition (fun _ _ => []) [] "data" "Users").2.1
        "data" "Users").1
      = (getDefinition (fun _ _ => []) [] "data" "Users").1 ∧
    ((getDefinition (fun _ _ => [])
        (invalidateDefinition
          (getDefinition (fun _ _ => []) [] "data" "Users").2.1
          "data" "Users")
        "data" "Users").2.2).length = 1 ∧
    cacheGet
        (getDefinition (fun _ _ => [])
          (invalidateDefinition
            (getDefinition (fun _ _ => []) [] "data" "Users").2.1
            "data" "Users")
          "data" "Users").2.1 "data" "Users"
      = some (getDefinition (fun _ _ => [])
          (invalidateDefinition
            (getDefinition (fun _ _ => []) [] "data" "Users").2.1
            "data" "Users")
          "data" "Users").1 :=
  getDefinition_caches (fun _ _ => []) [] "data" "Users" rfl

/-- C10: `escapeIdentifier` leaves every identifier without the substring
`chatrooms` unchanged (whatever SQL metacharacters it contains) and only
wraps identifiers containing `chatrooms` in backticks; consequently the
introspection SQL `getDefinition` builds embeds such identifiers verbatim,
with no quoting or escaping. -/
theorem escapeIdentifier_verbatim (s db t : String)
    (hdb : includesL ("chatrooms".data) db.data = false)
    (ht : includesL ("chatrooms".data) t.data = false) :
    escapeIdentifier db = db ∧
    escapeIdentifier t = t ∧
    introspectionSQL db t = "SELECT * FROM " ++ db ++ "." ++ t ++ " WHERE 1 = 0" ∧
    (includesL ("chatrooms".data) s.data = true →
      escapeIdentifier s = "`" ++ s ++ "`") := by
  refine ⟨?_, ?_, ?_, ?_⟩
  · simp [escapeIdentifier, hdb]
  · simp [escapeIdentifier, ht]
  · simp [introspectionSQL, escapeIdentifier, hdb, ht]
  · intro hs; simp [escapeIdentifier, hs]

/-- Witness for C10 at identifiers containing a backtick and a double quote,
plus one containing `chatrooms`. -/
theorem escapeIdentifier_verbatim_witness :
    escapeIdentifier "da`ta" = "da`ta" ∧
    escapeIdentifier "Us\"ers" = "Us\"ers" ∧
    introspectionSQL "da`ta" "Us\"ers"
      = "SELECT * FROM " ++ "da`ta" ++ "." ++ "Us\"ers" ++ " WHERE 1 = 0" ∧
    (includesL ("chatrooms".data) ("main_chatrooms".data) = true →
      escapeIdentifier "main_chatrooms" = "`" ++ "main_chatrooms" ++ "`") :=
  escapeIdentifier_verbatim "main_chatrooms" "da`ta" "Us\"ers"
    (by decide) (by decide)

end Supi
